import Mathlib

/-!
Shallow embedding of the TeleGuard capture-and-sync pipeline (`src/bot.py`).

Conventions of the embedding:
* Python floats are modelled as rationals (`Coord := ℚ`).
* A network call or subprocess that may fail (raise, time out, or return an
  unusable payload) is modelled by an `Option`-valued input: `none` means the
  call produced nothing usable, `some v` means it produced `v`.  The Python
  functions wrap these calls in `try/except` blocks whose handlers fall
  through to the next step, so the embedded functions are total.
* A JSON dictionary field that may be missing is an `Option` field; Python's
  `dict.get(k, d)` is `Option.getD`.
* Python truthiness of a coordinate (`if info.get('lat') and ...`) is the
  `truthy` predicate: `None` and `0` are falsy.
* The on-disk capture directory is a `List Artifact` in creation order; the
  `glob` listing, delivery loop and deletion operate on it.
-/

namespace TeleGuard

/-- Coordinates: Python floats modelled as rationals. -/
abbrev Coord := ℚ

/-- A precise fix as returned by `NetworkManager.get_windows_location` or
`NetworkManager.get_wifi_location`: the dict
`{"lat", "lon", "accuracy", "source"}`. -/
structure PreciseLoc where
  lat : Coord
  lon : Coord
  accuracy : Coord
  source : String
deriving DecidableEq, Repr

/-- Parsed body of a successful `ip-api.com` response (`status == "success"`).
The coordinate keys are optional because the code reads them defensively with
`data.get("lat", 0)` / `data.get("lon", 0)`. -/
structure IpData where
  query : String
  country : String
  city : String
  region : String
  isp : String
  timezone : String
  lat : Option Coord
  lon : Option Coord
deriving DecidableEq, Repr

/-- The dictionary `NetworkManager.get_location` returns, which
`WebcamCapture.startup_capture` serialises into a `location_*.json` artifact.
`lat`, `lon` and `accuracy` are `Option` because a JSON key may be absent:
the IP-fallback branch of `get_location` sets no `"accuracy"` key. -/
structure LocationRecord where
  ip : String
  country : String
  city : String
  region : String
  isp : String
  timezone : String
  lat : Option Coord
  lon : Option Coord
  accuracy : Option Coord
  source : String
deriving DecidableEq, Repr

/-- `NetworkManager.get_windows_location` (bot.py lines 279–328).  The input is
the parsed `lat,lon,accuracy` triple from the PowerShell output (`none` when the
subprocess failed, timed out, printed nothing or the floats failed to parse).
The code accepts the candidate only under
`lat != 0 and lon != 0 and abs(lat) <= 90 and abs(lon) <= 180`. -/
def get_windows_location (raw : Option (Coord × Coord × Coord)) :
    Option PreciseLoc :=
  match raw with
  | none => none
  | some (lat, lon, accuracy) =>
      if lat ≠ 0 ∧ lon ≠ 0 ∧ |lat| ≤ 90 ∧ |lon| ≤ 180 then
        some ⟨lat, lon, accuracy, "GPS/Wi-Fi (Precise)"⟩
      else
        none

/-- `NetworkManager.get_wifi_location` (bot.py lines 331–406).  The input is
the `lat`, `lng`, `accuracy` triple extracted from a 200-status Mozilla
Location Service response containing a `"location"` key (`none` for any
failure: too few networks, non-200 status, missing key, or an exception).
Note the code performs no range or zero check on the returned pair. -/
def get_wifi_location (resp : Option (Coord × Coord × Coord)) :
    Option PreciseLoc :=
  match resp with
  | none => none
  | some (lat, lon, accuracy) =>
      some ⟨lat, lon, accuracy, "Wi-Fi Networks (Precise)"⟩

/-- `NetworkManager.get_location` (bot.py lines 409–472): Windows location
first, Wi-Fi only if that produced nothing, then the IP lookup is attempted
unconditionally; its metadata wraps whichever precise fix exists, otherwise
its own coordinates (defaulted to 0) become the fix; with no IP data a precise
fix is returned with `"Unknown"` metadata; with nothing at all, `none`. -/
def get_location (winRaw wifiResp : Option (Coord × Coord × Coord))
    (ipResp : Option IpData) : Option LocationRecord :=
  let precise_loc : Option PreciseLoc :=
    match get_windows_location winRaw with
    | some w => some w
    | none => get_wifi_location wifiResp
  match ipResp with
  | some data =>
      match precise_loc with
      | some p =>
          some { ip := data.query, country := data.country, city := data.city,
                 region := data.region, isp := data.isp,
                 timezone := data.timezone,
                 lat := some p.lat, lon := some p.lon,
                 accuracy := some p.accuracy, source := p.source }
      | none =>
          some { ip := data.query, country := data.country, city := data.city,
                 region := data.region, isp := data.isp,
                 timezone := data.timezone,
                 lat := some (data.lat.getD 0), lon := some (data.lon.getD 0),
                 accuracy := none,
                 source := "IP Address (Approximate ~1-5km)" }
  | none =>
      match precise_loc with
      | some p =>
          some { ip := "Unknown", country := "Unknown", city := "Unknown",
                 region := "Unknown", isp := "Unknown", timezone := "Unknown",
                 lat := some p.lat, lon := some p.lon,
                 accuracy := some p.accuracy, source := p.source }
      | none => none

/-- The strategies `get_location` can invoke. -/
inductive Strategy
  | windows
  | wifi
  | ipLookup
deriving DecidableEq, Repr

/-- The sequence of strategy invocations `get_location` performs, read off its
control flow: `get_windows_location` is always called; `get_wifi_location`
only under `if not precise_loc:`; the `requests.get(Config.LOCATION_API)`
lookup is always attempted afterwards. -/
def get_location_calls (winRaw : Option (Coord × Coord × Coord)) :
    List Strategy :=
  if (get_windows_location winRaw).isSome then
    [Strategy.windows, Strategy.ipLookup]
  else
    [Strategy.windows, Strategy.wifi, Strategy.ipLookup]

/-- A file in the capture directory: either a webcam photo (`capture_*.jpg`)
or a serialised location record (`location_*.json`).  A store is a
`List Artifact` ordered by creation time, oldest first. -/
inductive Artifact
  | photo (name : String)
  | locationRec (name : String) (rec : LocationRecord)
deriving DecidableEq, Repr

/-- Whether the file matches the `*.jpg` glob rather than `location_*.json`. -/
def Artifact.isPhoto : Artifact → Bool
  | .photo _ => true
  | .locationRec _ _ => false

/-- The filename of an artifact. -/
def Artifact.name : Artifact → String
  | .photo n => n
  | .locationRec n _ => n

/-- `StorageManager.get_pending_files` (bot.py lines 244–249):
`glob("*.jpg")` followed by `glob("location_*.json")`, i.e. all photos first,
then all location records, each group in directory order (modelled here as
creation order within the group). -/
def get_pending_files (store : List Artifact) : List Artifact :=
  store.filter Artifact.isPhoto ++ store.filter (fun a => !a.isPhoto)

/-- `StorageManager.delete_file` (bot.py lines 251–256): `os.remove` inside a
`try/except` whose handler only logs, so on a directory it removes the file of
that name if present and otherwise changes nothing and raises nothing. -/
def delete_file (store : List Artifact) (filename : String) : List Artifact :=
  store.filter (fun a => !(a.name == filename))

/-- Python truthiness of an optional coordinate, as in
`if info.get('lat') and info.get('lon')`: a missing key (`None`) and the
value `0` are both falsy. -/
def truthy : Option Coord → Bool
  | none => false
  | some v => if v = 0 then false else true

/-- The guard on the coordinates message in `send_pending_files`
(bot.py line 853): `if info.get('lat') and info.get('lon')`. -/
def sendsCoordinates (r : LocationRecord) : Bool :=
  truthy r.lat && truthy r.lon

/-- Truthiness of `storage.admin_id` (`if not storage.admin_id` in
`send_pending_files`): unset (`None`) and `0` both count as no admin. -/
def adminSet : Option Int → Bool
  | none => false
  | some v => if v = 0 then false else true

/-- Outcome oracle for the Telegram sink: for each filename, whether the
corresponding `send_photo` / `send_message` / `send_location` call succeeds
(`false` = the call raises, e.g. because the network is down). -/
structure SinkEnv where
  photoOk : String → Bool
  msgOk : String → Bool
  locOk : String → Bool

/-- A single remote-sink call attempted during delivery. -/
inductive Call
  | sendPhoto (name : String)
  | sendMessage (name : String)
  | sendLocation (name : String)
deriving DecidableEq, Repr

/-- The calls the `send_pending_files` loop body attempts for one artifact:
a photo gets one `send_photo`; a location record gets `send_message` and
then, only if that call returned (did not raise) and both coordinates are
truthy, `send_location`. -/
def deliverCalls (env : SinkEnv) : Artifact → List Call
  | .photo n => [Call.sendPhoto n]
  | .locationRec n r =>
      Call.sendMessage n ::
        (if env.msgOk n && sendsCoordinates r then [Call.sendLocation n]
         else [])

/-- Whether the loop body of `send_pending_files` reaches
`storage.delete_file(filepath)` for this artifact: every attempted call must
succeed, since a raising call jumps to the `except` handler which only logs. -/
def deliverOk (env : SinkEnv) : Artifact → Bool
  | .photo n => env.photoOk n
  | .locationRec n r =>
      env.msgOk n && (if sendsCoordinates r then env.locOk n else true)

/-- One `send_pending_files` pass (bot.py lines 820–864): if no admin is
registered it returns at once; otherwise it iterates the listing of the
store, attempts delivery of each artifact, and deletes exactly those whose
calls all succeeded.  Result: the store afterwards (deletion preserves the
creation order of the survivors) and the list of sink calls attempted. -/
def drain (env : SinkEnv) (admin : Option Int) (store : List Artifact) :
    List Artifact × List Call :=
  if adminSet admin then
    (store.filter (fun a => !(deliverOk env a)),
     ((get_pending_files store).map (deliverCalls env)).flatten)
  else
    (store, [])

/-- `M` successive `send_pending_files` passes over the store. -/
def drainN (env : SinkEnv) (admin : Option Int) :
    Nat → List Artifact → List Artifact
  | 0, store => store
  | m + 1, store => drainN env admin m (drain env admin store).1

/-- One loop iteration of the capture burst: a successful
`WebcamCapture.capture()` appends a photo file, a failed one leaves the store
alone. -/
def captureStep (s : List Artifact) (res : Option String) : List Artifact :=
  match res with
  | some n => s ++ [Artifact.photo n]
  | none => s

/-- Observable events of `WebcamCapture.startup_capture`. -/
inductive CaptureEvent
  | captureAttempt (ok : Bool)
  | resolveCall
deriving DecidableEq, Repr

/-- `WebcamCapture.startup_capture` (bot.py lines 521–559): one capture
attempt per entry of `captureResults` (the outcome of each
`WebcamCapture.capture()` call, `some name` on success), then a single
`network.get_location()` call whose outcome is `loc`; a location file named
`locName` is written exactly when `loc` is non-`None`.  Returns the store
and the event trace. -/
def startup_capture (captureResults : List (Option String)) (locName : String)
    (loc : Option LocationRecord) (store : List Artifact) :
    List Artifact × List CaptureEvent :=
  let store1 := captureResults.foldl captureStep store
  let events :=
    captureResults.map (fun r => CaptureEvent.captureAttempt r.isSome)
  match loc with
  | some r =>
      (store1 ++ [Artifact.locationRec locName r],
       events ++ [CaptureEvent.resolveCall])
  | none => (store1, events ++ [CaptureEvent.resolveCall])

/-- The `ip-api.com` response of the C2 scenario: a successful lookup naming
Paris but reporting `lat = 0, lon = 0`. -/
def parisZeroData : IpData :=
  { query := "203.0.113.5", country := "France", city := "Paris",
    region := "Ile-de-France", isp := "ExampleISP",
    timezone := "Europe/Paris", lat := some 0, lon := some 0 }

/-- An IP response with usable approximate coordinates, for exercising the
IP fallback. -/
def ipOnlyData : IpData :=
  { query := "198.51.100.7", country := "Iceland", city := "Reykjavik",
    region := "Capital", isp := "NetCo", timezone := "Atlantic/Reykjavik",
    lat := some 64, lon := some (-22) }

/-- A stored location record carrying the IP-fallback pair `(0, 0)`. -/
def zeroZeroRec : LocationRecord :=
  { ip := "203.0.113.5", country := "France", city := "Paris",
    region := "Ile-de-France", isp := "ExampleISP",
    timezone := "Europe/Paris", lat := some 0, lon := some 0,
    accuracy := none, source := "IP Address (Approximate ~1-5km)" }

/-- A stored record with a genuine fix on the equator (`lat = 0`). -/
def equatorRec : LocationRecord :=
  { ip := "198.51.100.9", country := "Ecuador", city := "Quito",
    region := "Pichincha", isp := "AndesNet", timezone := "America/Guayaquil",
    lat := some 0, lon := some (-78), accuracy := some 5,
    source := "GPS/Wi-Fi (Precise)" }

/-- A stored record with a valid nonzero fix. -/
def fixRec : LocationRecord :=
  { ip := "198.51.100.8", country := "USA", city := "San Francisco",
    region := "CA", isp := "BayNet", timezone := "America/Los_Angeles",
    lat := some 37, lon := some (-122), accuracy := some 5,
    source := "GPS/Wi-Fi (Precise)" }

/-- A store whose oldest artifact is a location record and whose newest is a
photo: the location file was created a day before the photo. -/
def locFirstStore : List Artifact :=
  [Artifact.locationRec "location_20240101_000000.json" fixRec,
   Artifact.photo "capture_20240102_000000.jpg"]

/-- A sink where every call succeeds. -/
def envAllOk : SinkEnv :=
  { photoOk := fun _ => true, msgOk := fun _ => true, locOk := fun _ => true }

/-- A sink where the textual summary goes through but every
`send_location` call fails. -/
def envLocFails : SinkEnv :=
  { photoOk := fun _ => true, msgOk := fun _ => true, locOk := fun _ => false }

/-- A sink with the network down: every call fails. -/
def envOffline : SinkEnv :=
  { photoOk := fun _ => false, msgOk := fun _ => false,
    locOk := fun _ => false }

section Helpers

/-- With the network down, one `send_pending_files` pass leaves the store
untouched: every attempted delivery fails before reaching `delete_file`. -/
theorem offline_drain_fixed (env : SinkEnv)
    (hoff : ∀ n, env.photoOk n = false ∧ env.msgOk n = false)
    (admin : Option Int) (store : List Artifact) :
    (drain env admin store).1 = store := by
  unfold drain
  split
  · refine List.filter_eq_self.mpr ?_
    intro a _
    cases a with
    | photo n => simp [deliverOk, (hoff n).1]
    | locationRec n r => simp [deliverOk, (hoff n).2]
  · rfl

/-- Photos appended by the capture fold: one per successful attempt. -/
theorem captureFold_photo_count (rs : List (Option String))
    (s : List Artifact) :
    ((rs.foldl captureStep s).filter Artifact.isPhoto).length =
      (s.filter Artifact.isPhoto).length + rs.countP Option.isSome := by
  induction rs generalizing s with
  | nil => simp
  | cons r rs ih =>
      cases r with
      | none => simp only [List.foldl_cons, captureStep, List.countP_cons,
          Option.isSome_none, Bool.false_eq_true, if_false, Nat.add_zero, ih]
      | some n =>
          have := ih (s ++ [Artifact.photo n])
          simp only [List.foldl_cons, captureStep, List.countP_cons] at this ⊢
          rw [this]
          simp [List.filter_append, Artifact.isPhoto]
          omega

/-- The capture fold never adds a location record. -/
theorem captureFold_locRecs (rs : List (Option String)) (s : List Artifact) :
    (rs.foldl captureStep s).filter (fun a => !a.isPhoto) =
      s.filter (fun a => !a.isPhoto) := by
  induction rs generalizing s with
  | nil => rfl
  | cons r rs ih =>
      cases r with
      | none => exact ih s
      | some n =>
          have := ih (s ++ [Artifact.photo n])
          simp only [List.foldl_cons, captureStep]
          rw [this]
          simp [List.filter_append, Artifact.isPhoto]

end Helpers

/-- Claim C1, counterexample.  The claim says every in-range pair that is not
both-zero is accepted and that a both-zero pair is always treated as absent.
The code disagrees twice: the Windows strategy rejects the in-range pair
`(0, 50)` because it requires each coordinate individually nonzero, and the
Wi-Fi strategy accepts the pair `(0, 0)` as a fix because it performs no
validation at all. -/
theorem C1_counterexample :
    get_windows_location (some (0, 50, 5)) = none ∧
    (|(0 : Coord)| ≤ 90 ∧ |(50 : Coord)| ≤ 180 ∧
      ¬((0 : Coord) = 0 ∧ (50 : Coord) = 0)) ∧
    get_wifi_location (some (0, 0, 100)) =
      some ⟨0, 0, 100, "Wi-Fi Networks (Precise)"⟩ := by
  refine ⟨by simp [get_windows_location], by norm_num, rfl⟩

/-- Claim C1, amended.  The Windows-location strategy accepts a candidate
pair exactly when both coordinates are individually nonzero and in range, so
a pair on the equator or prime meridian is rejected even when otherwise
valid; the Wi-Fi strategy accepts any returned pair unvalidated, including
`(0, 0)`. -/
theorem C1_validation (lat lon acc : Coord) :
    ((get_windows_location (some (lat, lon, acc))).isSome = true ↔
      lat ≠ 0 ∧ lon ≠ 0 ∧ |lat| ≤ 90 ∧ |lon| ≤ 180) ∧
    get_wifi_location (some (lat, lon, acc)) =
      some ⟨lat, lon, acc, "Wi-Fi Networks (Precise)"⟩ := by
  constructor
  · simp only [get_windows_location]
    split <;> simp_all
  · rfl

/-- Claim C2, counterexample.  With all precise strategies failing and the IP
lookup reporting Paris with `lat = 0, lon = 0`, the produced record stores
the coordinates as the values `0` and `0` — they are not marked absent. -/
theorem C2_counterexample :
    (get_location none none (some parisZeroData)).map LocationRecord.lat =
      some (some 0) ∧
    (get_location none none (some parisZeroData)).map LocationRecord.lon =
      some (some 0) ∧
    (get_location none none (some parisZeroData)).map LocationRecord.source =
      some "IP Address (Approximate ~1-5km)" :=
  ⟨rfl, rfl, rfl⟩

/-- Claim C2, amended.  In the scenario the record carries the IP-approximate
source tag and stores `lat = 0, lon = 0` as values; the delivery-side
truthiness gate then treats the pair as absent, so no coordinates message is
ever sent for it, but `(0, 0)` itself is what sits in the artifact. -/
theorem C2_ip_zero_record (d : IpData) (hlat : d.lat = some 0)
    (hlon : d.lon = some 0)
    (winRaw wifiResp : Option (Coord × Coord × Coord))
    (hw : get_windows_location winRaw = none)
    (hf : get_wifi_location wifiResp = none) :
    ∃ r, get_location winRaw wifiResp (some d) = some r ∧
      r.source = "IP Address (Approximate ~1-5km)" ∧
      r.lat = some 0 ∧ r.lon = some 0 ∧
      r.city = d.city ∧ r.country = d.country ∧
      sendsCoordinates r = false := by
  have h : get_location winRaw wifiResp (some d) =
      some { ip := d.query, country := d.country, city := d.city,
             region := d.region, isp := d.isp, timezone := d.timezone,
             lat := some (d.lat.getD 0), lon := some (d.lon.getD 0),
             accuracy := none,
             source := "IP Address (Approximate ~1-5km)" } := by
    simp [get_location, hw, hf]
  refine ⟨_, h, rfl, ?_, ?_, rfl, rfl, ?_⟩
  · simp [hlat]
  · simp [hlon]
  · simp [sendsCoordinates, truthy, hlat, hlon]

/-- Claim C2, witness: the amended statement at the concrete Paris response. -/
theorem C2_witness :
    ∃ r, get_location none none (some parisZeroData) = some r ∧
      r.source = "IP Address (Approximate ~1-5km)" ∧
      r.lat = some 0 ∧ r.lon = some 0 ∧
      r.city = parisZeroData.city ∧ r.country = parisZeroData.country ∧
      sendsCoordinates r = false :=
  C2_ip_zero_record parisZeroData rfl rfl none none rfl rfl

/-- Claim C3, counterexample.  A location record created before a photo is
listed after it: `get_pending_files` returns all photos first, so the listing
is not creation order; moreover the photo's filename sorts lexically before
the older location record's filename, so lexical filename order is not
creation order either. -/
theorem C3_counterexample :
    get_pending_files locFirstStore =
      [Artifact.photo "capture_20240102_000000.jpg",
       Artifact.locationRec "location_20240101_000000.json" fixRec] ∧
    get_pending_files locFirstStore ≠ locFirstStore ∧
    ("capture_20240102_000000.jpg" : String).data <
      ("location_20240101_000000.json" : String).data := by
  refine ⟨rfl, by decide, by decide⟩

/-- Claim C3, amended.  `get_pending_files` returns every pending artifact
exactly once, and creation order is preserved *within* each kind (the photos
of the listing are the store's photos in creation order, likewise the
location records); but the listing places all photos before all location
records, so creation order across kinds does not hold. -/
theorem C3_listing_order (store : List Artifact) :
    (get_pending_files store).Perm store ∧
    (get_pending_files store).filter Artifact.isPhoto =
      store.filter Artifact.isPhoto ∧
    (get_pending_files store).filter (fun a => !a.isPhoto) =
      store.filter (fun a => !a.isPhoto) := by
  refine ⟨List.filter_append_perm Artifact.isPhoto store, ?_, ?_⟩
  · simp [get_pending_files, List.filter_append, List.filter_filter]
  · simp [get_pending_files, List.filter_append, List.filter_filter]

/-- Claim C4.  Delivering a location record with a present fix is two
dependent calls: the summary always, the coordinates message only after the
summary succeeded; the artifact is removed exactly when both succeed; if
either fails it stays queued unchanged, and a later drain whose calls all
succeed resends both messages and only then removes it. -/
theorem C4_two_call_delivery (env env2 : SinkEnv) (admin : Option Int)
    (n : String) (r : LocationRecord)
    (ha : adminSet admin = true) (hfix : sendsCoordinates r = true)
    (h2m : env2.msgOk n = true) (h2l : env2.locOk n = true) :
    (deliverCalls env (Artifact.locationRec n r) =
      Call.sendMessage n ::
        (if env.msgOk n then [Call.sendLocation n] else [])) ∧
    (deliverOk env (Artifact.locationRec n r) =
      (env.msgOk n && env.locOk n)) ∧
    (env.msgOk n = false ∨ env.locOk n = false →
      (drain env admin [Artifact.locationRec n r]).1 =
        [Artifact.locationRec n r]) ∧
    (drain env2 admin
        (drain env admin [Artifact.locationRec n r]).1).1 = [] ∧
    (env.msgOk n = false ∨ env.locOk n = false →
      (drain env2 admin
          (drain env admin [Artifact.locationRec n r]).1).2 =
        [Call.sendMessage n, Call.sendLocation n]) := by
  cases hm : env.msgOk n <;> cases hl : env.locOk n <;>
    simp [deliverCalls, deliverOk, drain, get_pending_files,
      Artifact.isPhoto, ha, hfix, hm, hl, h2m, h2l]

/-- Claim C4, witness: a summary-succeeds/coordinates-fails drain leaves the
record queued and a later all-ok drain empties the store. -/
theorem C4_witness :
    sendsCoordinates fixRec = true ∧
    (drain envAllOk (some 1)
        (drain envLocFails (some 1)
          [Artifact.locationRec "location_1.json" fixRec]).1).1 = [] :=
  ⟨by decide,
   (C4_two_call_delivery envLocFails envAllOk (some 1) "location_1.json"
      fixRec (by decide) (by decide) rfl rfl).2.2.2.1⟩

/-- Claim C5.  The drain is gated: with no registered admin it is a no-op on
the store and makes no sink call whatever the sink would do; with the network
down (every sink call fails, which is what an offline connectivity probe
reports), any number of drains leaves the store — and hence its size —
exactly as it was. -/
theorem C5_gates (env : SinkEnv) (admin : Option Int)
    (store : List Artifact) (M : Nat)
    (hoff : ∀ n, env.photoOk n = false ∧ env.msgOk n = false) :
    (adminSet admin = false →
      ∀ env1 : SinkEnv, drain env1 admin store = (store, [])) ∧
    drainN env admin M store = store ∧
    (drainN env admin M store).length = store.length := by
  have h2 : drainN env admin M store = store := by
    induction M with
    | zero => rfl
    | succ m ih =>
        show drainN env admin m (drain env admin store).1 = store
        rw [offline_drain_fixed env hoff admin store]
        exact ih
  exact ⟨fun h env1 => by simp [drain, h], h2, by rw [h2]⟩

/-- Claim C5, witness: offline, three queued artifacts survive two drains
even with the admin registered. -/
theorem C5_witness :
    drainN envOffline (some 7) 2
      [Artifact.photo "capture_a.jpg", Artifact.photo "capture_b.jpg",
       Artifact.locationRec "location_c.json" fixRec] =
      [Artifact.photo "capture_a.jpg", Artifact.photo "capture_b.jpg",
       Artifact.locationRec "location_c.json" fixRec] :=
  (C5_gates envOffline (some 7)
    [Artifact.photo "capture_a.jpg", Artifact.photo "capture_b.jpg",
     Artifact.locationRec "location_c.json" fixRec] 2
    (fun _ => ⟨rfl, rfl⟩)).2.1

/-- Claim C6.  A validated Windows fix short-circuits the Wi-Fi strategy
(which is then never invoked) but not the IP lookup, which is still
attempted; when it succeeds its metadata is attached to the precise fix and
the fix's coordinates and source tag are preserved. -/
theorem C6_short_circuit_enrichment
    (winRaw wifiResp : Option (Coord × Coord × Coord)) (d : IpData)
    (w : PreciseLoc) (hw : get_windows_location winRaw = some w) :
    Strategy.wifi ∉ get_location_calls winRaw ∧
    Strategy.ipLookup ∈ get_location_calls winRaw ∧
    get_location winRaw wifiResp (some d) =
      some { ip := d.query, country := d.country, city := d.city,
             region := d.region, isp := d.isp, timezone := d.timezone,
             lat := some w.lat, lon := some w.lon,
             accuracy := some w.accuracy, source := w.source } := by
  have hs : (get_windows_location winRaw).isSome = true := by
    rw [hw]; rfl
  refine ⟨?_, ?_, ?_⟩
  · simp [get_location_calls, hs]
  · simp [get_location_calls, hs]
  · simp [get_location, hw]

/-- Claim C6, witness: the device-sensor scenario `(37.7, -122.4,
accuracy 5)` keeps its source tag while picking up the IP metadata, and the
Wi-Fi strategy is not invoked. -/
theorem C6_witness :
    Strategy.wifi ∉
      get_location_calls (some ((37.7 : Coord), (-122.4 : Coord),
        (5 : Coord))) ∧
    Strategy.ipLookup ∈
      get_location_calls (some ((37.7 : Coord), (-122.4 : Coord),
        (5 : Coord))) ∧
    get_location (some ((37.7 : Coord), (-122.4 : Coord), (5 : Coord)))
        none (some ipOnlyData) =
      some { ip := "198.51.100.7", country := "Iceland", city := "Reykjavik",
             region := "Capital", isp := "NetCo",
             timezone := "Atlantic/Reykjavik",
             lat := some (37.7 : Coord), lon := some ((-122.4 : Coord)),
             accuracy := some (5 : Coord), source := "GPS/Wi-Fi (Precise)" } :=
  C6_short_circuit_enrichment (some (37.7, -122.4, 5)) none ipOnlyData
    ⟨37.7, -122.4, 5, "GPS/Wi-Fi (Precise)"⟩
    (by
      have h1 : |(37.7 : Coord)| ≤ 90 := by
        rw [abs_of_pos (by norm_num)]
        norm_num
      have h2 : |(-122.4 : Coord)| ≤ 180 := by
        rw [abs_of_neg (by norm_num)]
        norm_num
      rw [get_windows_location, if_pos]
      exact ⟨by norm_num, by norm_num, h1, h2⟩)

/-- Claim C7.  Over an empty store, a capture burst persists one photo per
successful attempt (failed attempts change nothing and abort nothing), the
event trace performs every capture attempt and then exactly one resolve call,
exactly one location record is appended precisely when that call returned a
record; in particular a burst of three attempts with one failure persists
exactly two photos. -/
theorem C7_burst_independence (captureResults : List (Option String))
    (locName : String) (loc : Option LocationRecord) :
    ((startup_capture captureResults locName loc []).1.filter
        Artifact.isPhoto).length = captureResults.countP Option.isSome ∧
    ((startup_capture captureResults locName loc []).1.filter
        (fun a => !a.isPhoto)).length = (if loc.isSome then 1 else 0) ∧
    (startup_capture captureResults locName loc []).2 =
      captureResults.map (fun r => CaptureEvent.captureAttempt r.isSome) ++
        [CaptureEvent.resolveCall] ∧
    ((startup_capture [some "capture_1.jpg", none, some "capture_3.jpg"]
        locName loc []).1.filter Artifact.isPhoto).length = 2 := by
  have hphotos : ∀ rs : List (Option String),
      ((startup_capture rs locName loc []).1.filter
        Artifact.isPhoto).length = rs.countP Option.isSome := by
    intro rs
    cases loc with
    | none =>
        simpa using captureFold_photo_count rs []
    | some r =>
        have := captureFold_photo_count rs ([] : List Artifact)
        simp only [startup_capture, List.filter_append]
        simp only [List.filter_nil, List.length_nil, Nat.zero_add] at this
        simp [this, Artifact.isPhoto]
  refine ⟨hphotos captureResults, ?_, ?_, hphotos _⟩
  · cases loc with
    | none =>
        simpa using congrArg List.length (captureFold_locRecs captureResults [])
    | some r =>
        have hrec := captureFold_locRecs captureResults ([] : List Artifact)
        simp only [List.filter_nil] at hrec
        simp only [startup_capture, List.filter_append, hrec,
          List.nil_append]
        simp [Artifact.isPhoto]
  · cases loc <;> rfl

/-- Claim C8.  `delete_file` is idempotent and local: deleting a filename not
present in the store is a no-op (the `FileNotFoundError` is swallowed),
deleting twice equals deleting once, every artifact with a different name
survives, and nothing outside the named file is ever touched — whatever
survives was already in the store and does not bear the deleted name. -/
theorem C8_remove_idempotent (store : List Artifact) (filename : String) :
    ((∀ a ∈ store, a.name ≠ filename) →
      delete_file store filename = store) ∧
    delete_file (delete_file store filename) filename =
      delete_file store filename ∧
    (∀ b ∈ store, b.name ≠ filename → b ∈ delete_file store filename) ∧
    (∀ b ∈ delete_file store filename, b ∈ store ∧ b.name ≠ filename) := by
  refine ⟨?_, ?_, ?_, ?_⟩
  · intro h
    refine List.filter_eq_self.mpr ?_
    intro a ha
    simp [h a ha]
  · simp [delete_file, List.filter_filter]
  · intro b hb hname
    simp [delete_file, List.mem_filter, hb, hname]
  · intro b hb
    simp only [delete_file, List.mem_filter] at hb
    refine ⟨hb.1, ?_⟩
    simpa using hb.2

/-- Claim C8, witness: deleting a name that is not in the store leaves the
store unchanged. -/
theorem C8_witness :
    delete_file [Artifact.photo "capture_a.jpg"] "location_b.json" =
      [Artifact.photo "capture_a.jpg"] :=
  (C8_remove_idempotent [Artifact.photo "capture_a.jpg"]
    "location_b.json").1 (by decide)

/-- Claim C9.  `get_location` is a total function of its strategy outcomes:
when neither precise strategy yields a fix, a successful IP lookup supplies
the fix (its coordinates, defaulted to 0 when missing) under the
IP-approximate source tag, and when the IP lookup also fails the result is
`none` — an absent value, not an exception. -/
theorem C9_never_raises (winRaw wifiResp : Option (Coord × Coord × Coord))
    (ipResp : Option IpData)
    (hw : get_windows_location winRaw = none)
    (hf : get_wifi_location wifiResp = none) :
    (∀ d, ipResp = some d →
      get_location winRaw wifiResp ipResp =
        some { ip := d.query, country := d.country, city := d.city,
               region := d.region, isp := d.isp, timezone := d.timezone,
               lat := some (d.lat.getD 0), lon := some (d.lon.getD 0),
               accuracy := none,
               source := "IP Address (Approximate ~1-5km)" }) ∧
    (ipResp = none → get_location winRaw wifiResp ipResp = none) := by
  constructor
  · rintro d rfl
    simp [get_location, hw, hf]
  · rintro rfl
    simp [get_location, hw, hf]

/-- Claim C9, witness: with both precise strategies failing, the IP response
for Reykjavik becomes the fix with the IP-approximate tag. -/
theorem C9_witness :
    get_location none none (some ipOnlyData) =
      some { ip := "198.51.100.7", country := "Iceland", city := "Reykjavik",
             region := "Capital", isp := "NetCo",
             timezone := "Atlantic/Reykjavik",
             lat := some 64, lon := some (-22), accuracy := none,
             source := "IP Address (Approximate ~1-5km)" } :=
  (C9_never_raises none none (some ipOnlyData) rfl rfl).1 ipOnlyData rfl

/-- Claim C10.  At delivery, the textual summary is always attempted for a
location record, while the coordinates message is attempted exactly when the
summary call succeeded and both stored coordinates are present and nonzero;
consequently a record with `lat = some 0` or `lon = some 0` — the IP-fallback
pair or a genuine equator/prime-meridian fix alike — never triggers a
coordinates message. -/
theorem C10_zero_coordinate_gate (env : SinkEnv) (n : String)
    (r : LocationRecord) :
    Call.sendMessage n ∈ deliverCalls env (Artifact.locationRec n r) ∧
    (Call.sendLocation n ∈ deliverCalls env (Artifact.locationRec n r) ↔
      env.msgOk n = true ∧ truthy r.lat = true ∧ truthy r.lon = true) ∧
    (r.lat = some 0 ∨ r.lon = some 0 →
      Call.sendLocation n ∉ deliverCalls env (Artifact.locationRec n r)) := by
  refine ⟨List.mem_cons_self _ _, ?_, ?_⟩
  · cases hm : env.msgOk n <;>
      cases hla : truthy r.lat <;> cases hlo : truthy r.lon <;>
      simp [deliverCalls, sendsCoordinates, hm, hla, hlo]
  · intro h0
    have hfix : sendsCoordinates r = false := by
      rcases h0 with h | h <;>
        simp [sendsCoordinates, truthy, h]
    simp [deliverCalls, hfix]

/-- Claim C10, witness: a genuine equatorial fix (`lat = 0`) gets no
coordinates message even from a fully working sink. -/
theorem C10_witness :
    Call.sendLocation "location_e.json" ∉
      deliverCalls envAllOk
        (Artifact.locationRec "location_e.json" equatorRec) :=
  (C10_zero_coordinate_gate envAllOk "location_e.json" equatorRec).2.2
    (Or.inl rfl)

end TeleGuard
